import Mathlib

/-!
Verification of the FaceSwap compositing pipeline (`FaceSwapService` in the
TypeScript source). Numbers are modelled as exact rationals (`ℚ`); pixel
channels as naturals clamped to `[0, 255]`; canvas drawing calls as an
explicit operation trace together with a small state machine for the
context's `globalCompositeOperation` / `globalAlpha` attributes.
-/

namespace FaceSwap

/-- A detected-face bounding box `{x, y, width, height}` in source-image
pixel coordinates (`DetectedFace['boundingBox']`). -/
structure BoundingBox where
  x : ℚ
  y : ℚ
  width : ℚ
  height : ℚ
deriving DecidableEq, Repr

/-- One facial landmark point (`FaceLandmarks`); advisory input only. -/
structure Landmark where
  x : ℚ
  y : ℚ
deriving DecidableEq, Repr

/-- The size of the loaded target overlay image (`HTMLImageElement`
width/height). -/
structure ImageSize where
  width : ℚ
  height : ℚ
deriving DecidableEq, Repr

/-- A detected face as consumed by `performAdvancedSwap`: bounding box plus
the (unused) landmark list. -/
structure DetectedFace where
  boundingBox : BoundingBox
  landmarks : List Landmark
deriving DecidableEq, Repr

/-- `FaceSwapConfig`: quality and blend-mode selectors are strings at the
JS runtime (the TS union type does not prevent unknown values reaching the
lookup tables), `featherAmount` a number, `colorMatch` a flag. -/
structure FaceSwapConfig where
  quality : String
  blendMode : String
  featherAmount : ℚ
  colorMatch : Bool
deriving DecidableEq, Repr

/-- Result of `calculateFaceTransform`. -/
structure FaceTransform where
  scaleX : ℚ
  scaleY : ℚ
  translateX : ℚ
  translateY : ℚ
deriving DecidableEq, Repr

/-- `calculateFaceTransform` from the source: per-axis scales, a uniform
base scale (the minimum), a 30% anisotropic blend-back, and a translation
that centers the scaled overlay on the bounding box. The landmark
parameter is accepted and ignored, exactly as in the source
(`_landmarks`). Rational division by zero yields 0 in this model, while
the JS source would produce a non-finite scale; neither raises an error,
and every claim involving a quotient assumes the divisor positive. -/
def calculateFaceTransform (boundingBox : BoundingBox) (targetImage : ImageSize)
    (_landmarks : List Landmark) : FaceTransform :=
  let scaleX := boundingBox.width / targetImage.width
  let scaleY := boundingBox.height / targetImage.height
  let uniformScale := min scaleX scaleY
  let finalScaleX := uniformScale + (scaleX - uniformScale) * (3 / 10)
  let finalScaleY := uniformScale + (scaleY - uniformScale) * (3 / 10)
  let scaledWidth := targetImage.width * finalScaleX
  let scaledHeight := targetImage.height * finalScaleY
  { scaleX := finalScaleX
    scaleY := finalScaleY
    translateX := boundingBox.x - (scaledWidth - boundingBox.width) / 2
    translateY := boundingBox.y - (scaledHeight - boundingBox.height) / 2 }

/-- The property names a plain JS object literal inherits from
`Object.prototype`. A bracket lookup `table[key]` on the literal tables in
the source returns the inherited member for these keys — a function (or,
for `__proto__`, an object), which is truthy — so the `|| fallback`
after the lookup does not fire for them. -/
def objectPrototypeKeys : List String :=
  ["constructor", "hasOwnProperty", "isPrototypeOf", "propertyIsEnumerable",
   "toLocaleString", "toString", "valueOf", "__proto__",
   "__defineGetter__", "__defineSetter__", "__lookupGetter__", "__lookupSetter__"]

/-- A value produced by the `blendModes[mode] || 'source-over'` expression:
either a string, or a truthy member inherited from `Object.prototype`
(whose string conversion is not a valid composite operation). -/
inductive BlendModeValue where
  | str : String → BlendModeValue
  | inheritedMember : BlendModeValue
deriving DecidableEq, Repr

/-- A value produced by the `opacityMap[quality] || 0.9` expression: either
a finite number, or a truthy member inherited from `Object.prototype`
(whose number conversion is NaN). -/
inductive OpacityValue where
  | num : ℚ → OpacityValue
  | inheritedMember : OpacityValue
deriving DecidableEq, Repr

/-- `getBlendMode` from the source: `blendModes[mode] || 'source-over'`.
The three own keys map per the table; a key inherited from
`Object.prototype` yields the truthy inherited member, so the `||`
fallback does not fire for it; every other key yields `undefined` and
falls back to `'source-over'`. -/
def getBlendMode (mode : String) : BlendModeValue :=
  if mode = "normal" then BlendModeValue.str "source-over"
  else if mode = "overlay" then BlendModeValue.str "overlay"
  else if mode = "multiply" then BlendModeValue.str "multiply"
  else if mode ∈ objectPrototypeKeys then BlendModeValue.inheritedMember
  else BlendModeValue.str "source-over"

/-- `getBlendOpacity` from the source: `opacityMap[quality] || 0.9`, with
the same `Object.prototype` caveat as `getBlendMode`. -/
def getBlendOpacity (quality : String) : OpacityValue :=
  if quality = "low" then OpacityValue.num (8 / 10)
  else if quality = "medium" then OpacityValue.num (9 / 10)
  else if quality = "high" then OpacityValue.num (95 / 100)
  else if quality ∈ objectPrototypeKeys then OpacityValue.inheritedMember
  else OpacityValue.num (9 / 10)

/-- The outer gradient radius of `applyFeathering`:
`Math.max(boundingBox.width, boundingBox.height) / 2`. -/
def featherRadius (boundingBox : BoundingBox) : ℚ :=
  max boundingBox.width boundingBox.height / 2

/-- The opacity of the radial feather gradient built by `applyFeathering`,
as a function of the radial distance `d` from the bounding box center.
The gradient is `createRadialGradient(cx, cy, radius * (1 - amount), cx,
cy, radius)` with opacity 1 at color stop 0 and opacity 0 at color stop
1. Both circles share the center, so when the two radii are equal
(`amount = 0`, or a degenerate zero-size box) the canvas specification
requires the gradient to paint nothing: opacity 0 everywhere. Otherwise
a radial gradient interpolates the stops linearly along the radius,
holds the first stop's color inside the inner circle and the last
stop's color outside the outer circle. -/
def featherMaskOpacity (boundingBox : BoundingBox) (amount : ℚ) (d : ℚ) : ℚ :=
  let radius := featherRadius boundingBox
  let innerRadius := radius * (1 - amount)
  if innerRadius = radius then 0
  else if d ≤ innerRadius then 1
  else if d < radius then (radius - d) / (radius - innerRadius)
  else 0

/-- One RGBA pixel of an `ImageData` buffer; each channel is a byte value
in `[0, 255]` (the bound is maintained by the clamped store, not by the
type). -/
structure Pixel where
  r : ℕ
  g : ℕ
  b : ℕ
  a : ℕ
deriving DecidableEq, Repr

/-- Per-channel multiplicative tint factors `{r, g, b}`. -/
structure TintFactors where
  r : ℚ
  g : ℚ
  b : ℚ
deriving DecidableEq, Repr

/-- Result of `transformations[targetFaceId] || {r: 1, g: 1, b: 1}`:
either a factor record, or a truthy member inherited from
`Object.prototype` (whose `r`, `g`, `b` properties are `undefined`). -/
inductive TintLookup where
  | factors : TintFactors → TintLookup
  | inheritedMember : TintLookup
deriving DecidableEq, Repr

/-- The identity-keyed tint table of `applyFaceSwapEffect`
(`transformations`): the three own keys map per the table; a key
inherited from `Object.prototype` yields the truthy inherited member, so
the `||` fallback does not fire for it; every other key yields
`undefined` and falls back to `{r: 1, g: 1, b: 1}`. -/
def tintFor (targetFaceId : String) : TintLookup :=
  if targetFaceId = "einstein" then TintLookup.factors ⟨11 / 10, 1, 9 / 10⟩
  else if targetFaceId = "mona-lisa" then TintLookup.factors ⟨21 / 20, 19 / 20, 17 / 20⟩
  else if targetFaceId = "obama" then TintLookup.factors ⟨19 / 20, 9 / 10, 4 / 5⟩
  else if targetFaceId ∈ objectPrototypeKeys then TintLookup.inheritedMember
  else TintLookup.factors ⟨1, 1, 1⟩

/-- Storing a number into a `Uint8ClampedArray` slot: round half to even,
then clamp into `[0, 255]`. -/
def toClampedByte (q : ℚ) : ℕ :=
  let f : ℤ := ⌊q⌋
  let frac : ℚ := q - f
  let n : ℤ :=
    if frac < 1 / 2 then f
    else if 1 / 2 < frac then f + 1
    else if Even f then f else f + 1
  (max 0 (min 255 n)).toNat

/-- One channel of the tint loop: `data[i] = Math.min(255, data[i] * factor)`
followed by the clamped store. -/
def tintChannel (c : ℕ) (factor : ℚ) : ℕ :=
  toClampedByte (min 255 ((c : ℚ) * factor))

/-- The body of the `applyFaceSwapEffect` loop for one pixel, given factor
values: red, green and blue are scaled and clamped; the alpha slot
(`i + 3`) is not written. -/
def applyTintPixel (t : TintFactors) (p : Pixel) : Pixel :=
  { r := tintChannel p.r t.r
    g := tintChannel p.g t.g
    b := tintChannel p.b t.b
    a := p.a }

/-- The loop body for whatever the table lookup returned. When the lookup
hit an inherited `Object.prototype` member, `transform.r` (`g`, `b`) is
`undefined`: `data[i] * undefined` is NaN, `Math.min(255, NaN)` is NaN,
and the `Uint8ClampedArray` store converts NaN to 0 — every color
channel becomes 0 while the alpha slot is still untouched. -/
def applyTintLookupPixel : TintLookup → Pixel → Pixel
  | TintLookup.factors t, p => applyTintPixel t p
  | TintLookup.inheritedMember, p => { r := 0, g := 0, b := 0, a := p.a }

/-- An `ImageData` value: dimensions plus the flat RGBA buffer, viewed as a
list of pixels (the source iterates the flat array in steps of 4). -/
structure ImageData where
  width : ℕ
  height : ℕ
  data : List Pixel
deriving DecidableEq, Repr

/-- `applyFaceSwapEffect` from the source: look the tint up by the target
face id and apply it to every pixel of the buffer in place. -/
def applyFaceSwapEffect (imageData : ImageData) (targetFaceId : String) : ImageData :=
  { imageData with data := imageData.data.map (applyTintLookupPixel (tintFor targetFaceId)) }

/-- One canvas-context call issued by `swapFace` / `performAdvancedSwap`,
recorded with the arguments that matter to the claims. `featherFill` is
the gradient `fillRect` of `applyFeathering`; `resetCanvas` is an
assignment to `canvas.width` / `canvas.height`, which resets the 2D
context to its default state. -/
inductive CanvasOp where
  | save : CanvasOp
  | restore : CanvasOp
  | resetCanvas : CanvasOp
  | drawBackground : CanvasOp
  | setComposite : BlendModeValue → CanvasOp
  | setAlpha : OpacityValue → CanvasOp
  | featherFill : BoundingBox → ℚ → CanvasOp
  | drawOverlay : FaceTransform → CanvasOp
  | getRegionData : BoundingBox → CanvasOp
  | putRegionData : BoundingBox → CanvasOp
  | getFullImageData : CanvasOp
deriving DecidableEq, Repr

/-- The calls issued by `applyFeathering`: switch to `destination-in`, fill
the radial-gradient rectangle, switch back to `source-over`. -/
def applyFeatheringOps (boundingBox : BoundingBox) (amount : ℚ) : List CanvasOp :=
  [CanvasOp.setComposite (BlendModeValue.str "destination-in"),
   CanvasOp.featherFill boundingBox amount,
   CanvasOp.setComposite (BlendModeValue.str "source-over")]

/-- The calls issued by `applyColorMatching`: read the region's pixels back,
then write them back in place (the `ctx.filter` assignments around the
write do not affect `putImageData`). -/
def applyColorMatchingOps (boundingBox : BoundingBox) : List CanvasOp :=
  [CanvasOp.getRegionData boundingBox, CanvasOp.putRegionData boundingBox]

/-- The calls issued by `performAdvancedSwap`, in source order: save the
context; feather (only when `featherAmount > 0`); set the blend mode and
opacity; draw the overlay at the solved transform; reset the blend mode
and opacity; color-match (only when `colorMatch`); restore the context. -/
def performAdvancedSwapOps (detectedFace : DetectedFace) (targetImage : ImageSize)
    (config : FaceSwapConfig) : List CanvasOp :=
  let boundingBox := detectedFace.boundingBox
  let transform := calculateFaceTransform boundingBox targetImage detectedFace.landmarks
  [CanvasOp.save]
    ++ (if 0 < config.featherAmount then applyFeatheringOps boundingBox config.featherAmount
        else [])
    ++ [CanvasOp.setComposite (getBlendMode config.blendMode),
        CanvasOp.setAlpha (getBlendOpacity config.quality),
        CanvasOp.drawOverlay transform,
        CanvasOp.setComposite (BlendModeValue.str "source-over"),
        CanvasOp.setAlpha (OpacityValue.num 1)]
    ++ (if config.colorMatch then applyColorMatchingOps boundingBox else [])
    ++ [CanvasOp.restore]

/-- The calls issued by one `swapFace` run after the target image has
loaded: resize the canvas (twice: width then height, each a context
reset), draw the source frame, run `performAdvancedSwap`, read the whole
frame back. -/
def swapFaceOps (detectedFace : DetectedFace) (targetImage : ImageSize)
    (config : FaceSwapConfig) : List CanvasOp :=
  [CanvasOp.resetCanvas, CanvasOp.resetCanvas, CanvasOp.drawBackground]
    ++ performAdvancedSwapOps detectedFace targetImage config
    ++ [CanvasOp.getFullImageData]

/-- The context attributes the claims track: `globalCompositeOperation`,
`globalAlpha`, and the save/restore stack of their snapshots. -/
structure CanvasState where
  op : String
  alpha : ℚ
  stack : List (String × ℚ)
deriving DecidableEq, Repr

/-- The default 2D-context state. -/
def CanvasState.default : CanvasState :=
  { op := "source-over", alpha := 1, stack := [] }

/-- Effect of one canvas call on the tracked state. Drawing and pixel calls
leave the attributes unchanged; `restore` with an empty stack is a no-op,
as in the canvas API. Assigning an inherited `Object.prototype` member is
ignored: its string conversion is not a valid composite operation, and
its number conversion is NaN, which `globalAlpha` ignores (every plain
string assigned in this program is one of the valid operations, so
string assignment always takes effect). -/
def stepOp (s : CanvasState) : CanvasOp → CanvasState
  | CanvasOp.save => { s with stack := (s.op, s.alpha) :: s.stack }
  | CanvasOp.restore =>
      match s.stack with
      | [] => s
      | (op, alpha) :: rest => { op := op, alpha := alpha, stack := rest }
  | CanvasOp.resetCanvas => CanvasState.default
  | CanvasOp.setComposite (BlendModeValue.str m) => { s with op := m }
  | CanvasOp.setComposite BlendModeValue.inheritedMember => s
  | CanvasOp.setAlpha (OpacityValue.num q) => { s with alpha := q }
  | CanvasOp.setAlpha OpacityValue.inheritedMember => s
  | _ => s

/-- Run a trace of canvas calls from a starting state. -/
def runOps (s : CanvasState) (ops : List CanvasOp) : CanvasState :=
  ops.foldl stepOp s

/-- Recognizes the gradient fill of `applyFeathering` in a trace. -/
def isFeatherFill : CanvasOp → Bool
  | CanvasOp.featherFill _ _ => true
  | _ => false

/-- Recognizes the overlay `drawImage` call in a trace. -/
def isDrawOverlay : CanvasOp → Bool
  | CanvasOp.drawOverlay _ => true
  | _ => false

/-- A drawing surface at the pixel level: a pixel for every coordinate.
Used to state what `applyColorMatching` does to the pixels of the canvas. -/
def Surface : Type := ℚ → ℚ → Pixel

/-- `ctx.getImageData(bb.x, bb.y, bb.width, bb.height)`: the region's
pixels, addressed by region-local offsets. -/
def getImageDataRegion (s : Surface) (boundingBox : BoundingBox) : ℚ → ℚ → Pixel :=
  fun dx dy => s (boundingBox.x + dx) (boundingBox.y + dy)

/-- `ctx.putImageData(data, bb.x, bb.y)`: write the buffer back at the
region's origin, leaving every pixel outside the region untouched.
`putImageData` writes the raw pixel data directly; it is not affected by
the context's `filter`, compositing or alpha attributes. -/
def putImageDataRegion (s : Surface) (boundingBox : BoundingBox)
    (data : ℚ → ℚ → Pixel) : Surface :=
  fun px py =>
    if boundingBox.x ≤ px ∧ px < boundingBox.x + boundingBox.width ∧
        boundingBox.y ≤ py ∧ py < boundingBox.y + boundingBox.height then
      data (px - boundingBox.x) (py - boundingBox.y)
    else s px py

/-- `applyColorMatching` from the source: read the region's pixels, set
`ctx.filter` to `contrast(1.05) brightness(1.02) saturate(0.95)`, write
the pixels back with `putImageData`, reset the filter. The filter
assignment is modelled by no pixel effect because `putImageData` ignores
the filter attribute. -/
def applyColorMatching (s : Surface) (boundingBox : BoundingBox) : Surface :=
  let imageData := getImageDataRegion s boundingBox
  putImageDataRegion s boundingBox imageData

/-- `SwapResult` as constructed by `swapFace`: a success flag and an
optional plain error message (the pixel payload and timing are omitted). -/
structure SwapResult where
  success : Bool
  error : Option String
deriving DecidableEq, Repr

/-- The outcome of one `swapFace` call together with the canvas calls it
issues. `loadOk` says whether the external target-image load succeeded;
it is the only failure source on this path: the body performs no
validation of the region or the overlay size, and the catch block turns a
load rejection into `success: false` with a plain message. -/
def swapFace (detectedFace : DetectedFace) (targetImage : ImageSize)
    (config : FaceSwapConfig) (loadOk : Bool) : SwapResult × List CanvasOp :=
  if loadOk then
    ({ success := true, error := none }, swapFaceOps detectedFace targetImage config)
  else
    ({ success := false, error := some "Face swap failed" }, [])

/-- C9: for a fixed bounding box, overlay size and config, the solved
transform — and in fact the whole trace of canvas calls issued by
`performAdvancedSwap` — is identical for any two landmark lists: the
landmark input does not affect the computed scale or translation. -/
theorem calculateFaceTransform_landmark_independent :
    ∀ (boundingBox : BoundingBox) (targetImage : ImageSize)
      (l1 l2 : List Landmark) (config : FaceSwapConfig),
      calculateFaceTransform boundingBox targetImage l1
          = calculateFaceTransform boundingBox targetImage l2 ∧
      performAdvancedSwapOps ⟨boundingBox, l1⟩ targetImage config
          = performAdvancedSwapOps ⟨boundingBox, l2⟩ targetImage config :=
  fun _ _ _ _ _ => ⟨rfl, rfl⟩

/-- C10: for every image buffer and every identity id, the tint rewrites
only the red, green and blue channels: the buffer's width, height and
pixel count are unchanged and every pixel's alpha channel is preserved. -/
theorem applyFaceSwapEffect_preserves_shape_and_alpha :
    ∀ (imageData : ImageData) (targetFaceId : String),
      (applyFaceSwapEffect imageData targetFaceId).width = imageData.width ∧
      (applyFaceSwapEffect imageData targetFaceId).height = imageData.height ∧
      (applyFaceSwapEffect imageData targetFaceId).data.length = imageData.data.length ∧
      (applyFaceSwapEffect imageData targetFaceId).data.map Pixel.a
          = imageData.data.map Pixel.a := by
  intro imageData targetFaceId
  refine ⟨rfl, rfl, by simp [applyFaceSwapEffect], ?_⟩
  simp only [applyFaceSwapEffect, List.map_map]
  have h : (Pixel.a ∘ applyTintLookupPixel (tintFor targetFaceId)) = Pixel.a := by
    funext p
    rcases tintFor targetFaceId with t | _ <;> rfl
  exact congrFun (congrArg List.map h) imageData.data

/-- C4 (counterexample): the unknown blend mode `"toString"` and the
unknown quality `"constructor"` do NOT fall back to `source-over` / 0.9:
the bracket lookup finds the truthy member inherited from
`Object.prototype`, so the `||` fallback never fires for them. -/
theorem blend_lookup_prototype_cex :
    ¬ (getBlendMode "toString" = BlendModeValue.str "source-over" ∧
       getBlendOpacity "constructor" = OpacityValue.num (9 / 10)) := by
  intro h
  exact absurd h.1 (by decide)

/-- C4 (amended): the lookup tables map `normal`, `overlay`, `multiply` to
`source-over`, `overlay`, `multiply` and `low`, `medium`, `high` to 0.8,
0.9, 0.95; an unknown value that is not an `Object.prototype` member name
falls back to `source-over` / 0.9; an `Object.prototype` member name
yields the truthy inherited member instead — and assigning that member to
the context is ignored (invalid composite-operation string, NaN alpha),
leaving the attributes unchanged. Both lookups are total functions, so no
value can cause a throw. -/
theorem blend_lookup_spec :
    getBlendMode "normal" = BlendModeValue.str "source-over" ∧
    getBlendMode "overlay" = BlendModeValue.str "overlay" ∧
    getBlendMode "multiply" = BlendModeValue.str "multiply" ∧
    getBlendOpacity "low" = OpacityValue.num (8 / 10) ∧
    getBlendOpacity "medium" = OpacityValue.num (9 / 10) ∧
    getBlendOpacity "high" = OpacityValue.num (95 / 100) ∧
    (∀ mode, mode ≠ "normal" → mode ≠ "overlay" → mode ≠ "multiply" →
      mode ∉ objectPrototypeKeys →
      getBlendMode mode = BlendModeValue.str "source-over") ∧
    (∀ quality, quality ≠ "low" → quality ≠ "medium" → quality ≠ "high" →
      quality ∉ objectPrototypeKeys →
      getBlendOpacity quality = OpacityValue.num (9 / 10)) ∧
    (∀ mode, mode ∈ objectPrototypeKeys →
      getBlendMode mode = BlendModeValue.inheritedMember ∧
      getBlendOpacity mode = OpacityValue.inheritedMember ∧
      (∀ s : CanvasState, stepOp s (CanvasOp.setComposite (getBlendMode mode)) = s ∧
        stepOp s (CanvasOp.setAlpha (getBlendOpacity mode)) = s)) := by
  refine ⟨rfl, rfl, rfl, rfl, rfl, rfl, ?_, ?_, ?_⟩
  · intro mode h1 h2 h3 h4
    simp [getBlendMode, h1, h2, h3, h4]
  · intro quality h1 h2 h3 h4
    simp [getBlendOpacity, h1, h2, h3, h4]
  · intro mode hm
    have hgm : getBlendMode mode = BlendModeValue.inheritedMember := by
      simp only [objectPrototypeKeys, List.mem_cons, List.not_mem_nil, or_false] at hm
      rcases hm with rfl | rfl | rfl | rfl | rfl | rfl | rfl | rfl | rfl | rfl | rfl | rfl <;> rfl
    have hgo : getBlendOpacity mode = OpacityValue.inheritedMember := by
      simp only [objectPrototypeKeys, List.mem_cons, List.not_mem_nil, or_false] at hm
      rcases hm with rfl | rfl | rfl | rfl | rfl | rfl | rfl | rfl | rfl | rfl | rfl | rfl <;> rfl
    refine ⟨hgm, hgo, ?_⟩
    intro s
    rw [hgm, hgo]
    exact ⟨rfl, rfl⟩

/-- Witness for the fallback and prototype clauses of `blend_lookup_spec`
at the unknown value `"screen"`, the unknown quality `"ultra"`, and the
prototype key `"valueOf"`. -/
theorem blend_lookup_spec_witness :
    getBlendMode "screen" = BlendModeValue.str "source-over" ∧
    getBlendOpacity "ultra" = OpacityValue.num (9 / 10) ∧
    getBlendMode "valueOf" = BlendModeValue.inheritedMember :=
  ⟨blend_lookup_spec.2.2.2.2.2.2.1 "screen" (by decide) (by decide) (by decide) (by decide),
   blend_lookup_spec.2.2.2.2.2.2.2.1 "ultra" (by decide) (by decide) (by decide) (by decide),
   (blend_lookup_spec.2.2.2.2.2.2.2.2 "valueOf" (by decide)).1⟩

/-- C6 (counterexample): the id `"toString"` is outside the known set, yet
its factors do NOT default to `{1,1,1}`: the bracket lookup finds the
truthy inherited `Object.prototype.toString`, the `||` fallback never
fires, the undefined factor fields multiply to NaN and the clamped store
writes 0 — a `(200,200,200,255)` pixel becomes `(0,0,0,255)`, not
`(200,200,200,255)`. -/
theorem tintFor_prototype_cex :
    ¬ (tintFor "toString" = TintLookup.factors ⟨1, 1, 1⟩) ∧
    applyTintLookupPixel (tintFor "toString") ⟨200, 200, 200, 255⟩ = ⟨0, 0, 0, 255⟩ :=
  ⟨by decide, rfl⟩

/-- C6 (amended): the einstein tint is `(1.1, 1.0, 0.9)` and applies per
pixel with clamping at 255: `(200,200,200)` becomes `(220,200,180)`, and
for `(250,250,250)` the red channel clamps to 255 instead of
overflowing; an id outside the table that is not an `Object.prototype`
member name defaults to factors `{1,1,1}`; an `Object.prototype` member
name yields the inherited member, whose undefined factors turn every
color channel into NaN, stored as 0 by the clamped buffer (alpha
untouched). -/
theorem applyIdentityTint_einstein_spec :
    tintFor "einstein" = TintLookup.factors ⟨11 / 10, 1, 9 / 10⟩ ∧
    (∀ imageData : ImageData,
      (applyFaceSwapEffect imageData "einstein").data
        = imageData.data.map (applyTintPixel ⟨11 / 10, 1, 9 / 10⟩)) ∧
    applyTintLookupPixel (tintFor "einstein") ⟨200, 200, 200, 255⟩ = ⟨220, 200, 180, 255⟩ ∧
    applyTintLookupPixel (tintFor "einstein") ⟨250, 250, 250, 255⟩ = ⟨255, 250, 225, 255⟩ ∧
    (∀ targetFaceId, targetFaceId ≠ "einstein" → targetFaceId ≠ "mona-lisa" →
      targetFaceId ≠ "obama" → targetFaceId ∉ objectPrototypeKeys →
      tintFor targetFaceId = TintLookup.factors ⟨1, 1, 1⟩) ∧
    (∀ targetFaceId, targetFaceId ∈ objectPrototypeKeys →
      tintFor targetFaceId = TintLookup.inheritedMember) ∧
    (∀ p : Pixel, applyTintLookupPixel TintLookup.inheritedMember p = ⟨0, 0, 0, p.a⟩) := by
  refine ⟨rfl, ?_, ?_, ?_, ?_, ?_, fun p => rfl⟩
  · intro imageData
    have h : tintFor "einstein" = TintLookup.factors ⟨11 / 10, 1, 9 / 10⟩ := rfl
    simp [applyFaceSwapEffect, h, applyTintLookupPixel]
  · show applyTintPixel ⟨11 / 10, 1, 9 / 10⟩ ⟨200, 200, 200, 255⟩ = ⟨220, 200, 180, 255⟩
    norm_num [applyTintPixel, tintChannel, toClampedByte]
    decide
  · show applyTintPixel ⟨11 / 10, 1, 9 / 10⟩ ⟨250, 250, 250, 255⟩ = ⟨255, 250, 225, 255⟩
    norm_num [applyTintPixel, tintChannel, toClampedByte]
    decide
  · intro targetFaceId h1 h2 h3 h4
    simp [tintFor, h1, h2, h3, h4]
  · intro targetFaceId hm
    simp only [objectPrototypeKeys, List.mem_cons, List.not_mem_nil, or_false] at hm
    rcases hm with rfl | rfl | rfl | rfl | rfl | rfl | rfl | rfl | rfl | rfl | rfl | rfl <;> rfl

/-- Witness for `applyIdentityTint_einstein_spec`: the plain unknown id
`"unknown-face"` keeps the identity factors, while the prototype key
`"hasOwnProperty"` hits the inherited member. -/
theorem applyIdentityTint_einstein_spec_witness :
    tintFor "unknown-face" = TintLookup.factors ⟨1, 1, 1⟩ ∧
    tintFor "hasOwnProperty" = TintLookup.inheritedMember :=
  ⟨applyIdentityTint_einstein_spec.2.2.2.2.1 "unknown-face"
      (by decide) (by decide) (by decide) (by decide),
   applyIdentityTint_einstein_spec.2.2.2.2.2.1 "hasOwnProperty" (by decide)⟩

/-- C7 (code behavior at the bug): `applyColorMatching` reads the region's
pixels and writes the very same pixels back — `putImageData` is not
affected by the `ctx.filter` assignment around it — so it is the identity
on every pixel of the surface; in particular no contrast, brightness or
saturation change happens. -/
theorem applyColorMatching_identity :
    ∀ (s : Surface) (boundingBox : BoundingBox) (px py : ℚ),
      applyColorMatching s boundingBox px py = s px py := by
  intro s boundingBox px py
  simp only [applyColorMatching, putImageDataRegion, getImageDataRegion]
  split
  · have h1 : boundingBox.x + (px - boundingBox.x) = px := by ring
    have h2 : boundingBox.y + (py - boundingBox.y) = py := by ring
    rw [h1, h2]
  · rfl

/-- C8 (counterexample): a pipeline invocation with a zero-area region and
a positive-size overlay returns a success result, not a failure of any
kind — refuting that it is an `InvalidOverlay` typed failure. -/
theorem swapFace_zeroArea_cex :
    ¬ ((swapFace ⟨⟨0, 0, 0, 0⟩, []⟩ ⟨200, 200⟩
          ⟨"high", "normal", 0, false⟩ true).1.success = false) := by decide

/-- C8 (amended): `swapFace` performs no validation of the region or the
overlay size: whenever the external image load succeeds, the result is
`success: true` with no error, whatever the geometry. -/
theorem swapFace_no_geometry_validation :
    ∀ (detectedFace : DetectedFace) (targetImage : ImageSize) (config : FaceSwapConfig),
      (swapFace detectedFace targetImage config true).1.success = true ∧
      (swapFace detectedFace targetImage config true).1.error = none :=
  fun _ _ _ => ⟨rfl, rfl⟩

/-- C1: for positive region and overlay sizes the solver blends 30% of the
per-axis scale into the uniform base scale `min(sx, sy)`, both final
scales are positive, and the center of the transformed overlay rectangle
coincides exactly with the region's center. -/
theorem calculateFaceTransform_spec (boundingBox : BoundingBox) (targetImage : ImageSize)
    (landmarks : List Landmark)
    (hbw : 0 < boundingBox.width) (hbh : 0 < boundingBox.height)
    (hiw : 0 < targetImage.width) (hih : 0 < targetImage.height) :
    let t := calculateFaceTransform boundingBox targetImage landmarks
    let sx := boundingBox.width / targetImage.width
    let sy := boundingBox.height / targetImage.height
    let uniform := min sx sy
    t.scaleX = uniform + (sx - uniform) * (3 / 10) ∧
    t.scaleY = uniform + (sy - uniform) * (3 / 10) ∧
    0 < t.scaleX ∧ 0 < t.scaleY ∧
    t.translateX + t.scaleX * targetImage.width / 2
        = boundingBox.x + boundingBox.width / 2 ∧
    t.translateY + t.scaleY * targetImage.height / 2
        = boundingBox.y + boundingBox.height / 2 := by
  have hsx : 0 < boundingBox.width / targetImage.width := div_pos hbw hiw
  have hsy : 0 < boundingBox.height / targetImage.height := div_pos hbh hih
  have hu : 0 < min (boundingBox.width / targetImage.width)
      (boundingBox.height / targetImage.height) := lt_min hsx hsy
  have hux : min (boundingBox.width / targetImage.width)
      (boundingBox.height / targetImage.height)
        ≤ boundingBox.width / targetImage.width := min_le_left _ _
  have huy : min (boundingBox.width / targetImage.width)
      (boundingBox.height / targetImage.height)
        ≤ boundingBox.height / targetImage.height := min_le_right _ _
  refine ⟨rfl, rfl, ?_, ?_, ?_, ?_⟩
  · simp only [calculateFaceTransform]
    nlinarith [hu, hux]
  · simp only [calculateFaceTransform]
    nlinarith [hu, huy]
  · simp only [calculateFaceTransform]
    ring
  · simp only [calculateFaceTransform]
    ring

/-- Witness for `calculateFaceTransform_spec` at the region
`{x: 50, y: 50, w: 100, h: 50}` with a 200 by 200 overlay. -/
theorem calculateFaceTransform_spec_witness :
    0 < (calculateFaceTransform ⟨50, 50, 100, 50⟩ ⟨200, 200⟩ []).scaleX ∧
    (calculateFaceTransform ⟨50, 50, 100, 50⟩ ⟨200, 200⟩ []).translateX
        + (calculateFaceTransform ⟨50, 50, 100, 50⟩ ⟨200, 200⟩ []).scaleX * (200 : ℚ) / 2
      = (50 : ℚ) + 100 / 2 := by
  have h := calculateFaceTransform_spec ⟨50, 50, 100, 50⟩ ⟨200, 200⟩ []
    (by norm_num) (by norm_num) (by norm_num) (by norm_num)
  exact ⟨h.2.2.1, h.2.2.2.2.1⟩

/-- C3 (counterexample): with featherAmount 0 the mask is NOT fully opaque
inside the inscribed circle: the source builds
`createRadialGradient(cx, cy, radius, cx, cy, radius)` with equal radii,
which the canvas specification requires to paint nothing, so on the
square region `{x:0, y:0, w:100, h:100}` the opacity at the very center
(distance 0, inside any inscribed circle) is 0, not 1. -/
theorem buildFeatherMask_amount0_cex :
    ¬ (featherMaskOpacity ⟨0, 0, 100, 100⟩ 0 0 = 1) := by
  have h0 : featherMaskOpacity ⟨0, 0, 100, 100⟩ 0 0 = 0 := by
    simp only [featherMaskOpacity, featherRadius]
    norm_num
  rw [h0]
  norm_num

/-- C3 (amended): for featherAmount in (0, 1] the feather mask is the
claimed circular radial falloff around the region center — fully opaque
up to the inner radius `outer * (1 - featherAmount)`, linearly
interpolated between the inner and the outer radius
`max(width, height) / 2`, zero beyond the outer radius, and with
featherAmount 1 opacity 1 exactly at the center point. At featherAmount 0
the two gradient radii coincide and the degenerate radial gradient paints
nothing, so the mask is fully transparent everywhere rather than a
hard-edged opaque circle (the compositor never applies the mask at
featherAmount 0, which is guarded by `featherAmount > 0`). -/
theorem buildFeatherMask_spec (boundingBox : BoundingBox)
    (hbw : 0 < boundingBox.width) (hbh : 0 < boundingBox.height) :
    (∀ amount d, 0 < amount → d ≤ featherRadius boundingBox * (1 - amount) →
        featherMaskOpacity boundingBox amount d = 1) ∧
    (∀ amount d, 0 < amount → featherRadius boundingBox * (1 - amount) < d →
        d < featherRadius boundingBox →
        featherMaskOpacity boundingBox amount d
          = (featherRadius boundingBox - d)
            / (featherRadius boundingBox - featherRadius boundingBox * (1 - amount))) ∧
    (∀ amount d, 0 < amount → featherRadius boundingBox ≤ d →
        featherMaskOpacity boundingBox amount d = 0) ∧
    (∀ d, featherMaskOpacity boundingBox 0 d = 0) ∧
    (∀ d, 0 ≤ d → (featherMaskOpacity boundingBox 1 d = 1 ↔ d = 0)) := by
  have hr : 0 < featherRadius boundingBox := by
    have hm : 0 < max boundingBox.width boundingBox.height :=
      lt_max_iff.mpr (Or.inl hbw)
    unfold featherRadius
    linarith
  refine ⟨?_, ?_, ?_, ?_, ?_⟩
  · intro amount d ha h
    have hne : ¬(featherRadius boundingBox * (1 - amount) = featherRadius boundingBox) := by
      have hlt : featherRadius boundingBox * (1 - amount) < featherRadius boundingBox := by
        nlinarith
      exact ne_of_lt hlt
    simp only [featherMaskOpacity]
    split_ifs
    rfl
  · intro amount d ha h1 h2
    have hne : ¬(featherRadius boundingBox * (1 - amount) = featherRadius boundingBox) := by
      have hlt : featherRadius boundingBox * (1 - amount) < featherRadius boundingBox := by
        nlinarith
      exact ne_of_lt hlt
    simp only [featherMaskOpacity]
    split_ifs with hA
    · exact absurd hA (not_le.mpr h1)
    · rfl
  · intro amount d ha h2
    have hlt : featherRadius boundingBox * (1 - amount) < featherRadius boundingBox := by
      nlinarith
    have hne : ¬(featherRadius boundingBox * (1 - amount) = featherRadius boundingBox) :=
      ne_of_lt hlt
    simp only [featherMaskOpacity]
    split_ifs with hA hB
    · exact absurd hA (by push_neg; linarith)
    · exact absurd hB (not_lt.mpr h2)
    · rfl
  · intro d
    simp only [featherMaskOpacity]
    split_ifs with h0 hA hB
    · rfl
    · exact absurd (by ring) h0
    · exact absurd (by ring) h0
    · exact absurd (by ring) h0
  · intro d hd0
    have hne1 : ¬(featherRadius boundingBox * (1 - 1) = featherRadius boundingBox) := by
      have hlt : featherRadius boundingBox * (1 - 1) < featherRadius boundingBox := by
        nlinarith
      exact ne_of_lt hlt
    constructor
    · intro h
      simp only [featherMaskOpacity] at h
      split_ifs at h with hA hB
      · have hz : featherRadius boundingBox * (1 - 1) = 0 := by ring
        rw [hz] at hA
        exact le_antisymm hA hd0
      · have hz : featherRadius boundingBox - featherRadius boundingBox * (1 - 1)
            = featherRadius boundingBox := by ring
        rw [hz] at h
        have hr0 : featherRadius boundingBox ≠ 0 := ne_of_gt hr
        field_simp at h
        linarith
      · exact absurd h (by norm_num)
    · intro h
      subst h
      simp only [featherMaskOpacity]
      have hz : (0 : ℚ) ≤ featherRadius boundingBox * (1 - 1) := by
        have : featherRadius boundingBox * (1 - 1) = 0 := by ring
        linarith
      split_ifs
      rfl

/-- Witness for `buildFeatherMask_spec` on the square region
`{x: 0, y: 0, w: 100, h: 100}`: the fully-soft mask has opacity 1 at the
center, the half-feathered mask is opaque at distance 25, and the
degenerate amount-0 mask paints nothing at distance 10. -/
theorem buildFeatherMask_spec_witness :
    featherMaskOpacity ⟨0, 0, 100, 100⟩ 1 0 = 1 ∧
    featherMaskOpacity ⟨0, 0, 100, 100⟩ (1 / 2) 25 = 1 ∧
    featherMaskOpacity ⟨0, 0, 100, 100⟩ 0 10 = 0 := by
  have h := buildFeatherMask_spec ⟨0, 0, 100, 100⟩ (by norm_num) (by norm_num)
  refine ⟨(h.2.2.2.2 0 (by norm_num)).mpr rfl, h.1 (1 / 2) 25 (by norm_num) ?_,
    h.2.2.2.1 10⟩
  show (25 : ℚ) ≤ max (100 : ℚ) 100 / 2 * (1 - 1 / 2)
  norm_num

/-- C2 (counterexample): in the composite trace for a config with
`featherAmount = 0.5`, the overlay draw call does NOT precede the feather
fill — `applyFeathering` runs before `drawImage`, so the feather mask is
not a post-pass over the drawn overlay. -/
theorem performAdvancedSwap_feather_order_cex :
    ¬ ((performAdvancedSwapOps ⟨⟨0, 0, 100, 100⟩, []⟩ ⟨200, 200⟩
          ⟨"high", "normal", 1 / 2, false⟩).findIdx isDrawOverlay <
       (performAdvancedSwapOps ⟨⟨0, 0, 100, 100⟩, []⟩ ⟨200, 200⟩
          ⟨"high", "normal", 1 / 2, false⟩).findIdx isFeatherFill) := by
  have hf : (0 : ℚ) < 1 / 2 := by norm_num
  norm_num [performAdvancedSwapOps, applyFeatheringOps, isFeatherFill, isDrawOverlay,
    List.findIdx_cons, hf]

/-- C2 (amended): in every composite invocation the feather mask is applied
exactly when `featherAmount > 0`, and when applied it strictly PRECEDES
the overlay draw at the solved transform: the gradient's
`destination-in` fill erases the already-drawn background outside the
soft circle, and the overlay is then drawn on top. -/
theorem performAdvancedSwap_feather_spec :
    ∀ (detectedFace : DetectedFace) (targetImage : ImageSize) (config : FaceSwapConfig),
      ((performAdvancedSwapOps detectedFace targetImage config).countP isFeatherFill
          = if 0 < config.featherAmount then 1 else 0) ∧
      (0 < config.featherAmount →
        (performAdvancedSwapOps detectedFace targetImage config).findIdx isFeatherFill <
        (performAdvancedSwapOps detectedFace targetImage config).findIdx isDrawOverlay) := by
  intro detectedFace targetImage config
  by_cases hf : 0 < config.featherAmount <;> by_cases hc : config.colorMatch <;>
    simp [performAdvancedSwapOps, applyFeatheringOps, applyColorMatchingOps,
      hf, hc, List.countP_cons, List.countP_append, isFeatherFill, isDrawOverlay,
      List.findIdx_cons]

/-- Witness for `performAdvancedSwap_feather_spec` at a feathered config:
the feather fill comes strictly before the overlay draw. -/
theorem performAdvancedSwap_feather_spec_witness :
    (performAdvancedSwapOps ⟨⟨5, 5, 40, 60⟩, []⟩ ⟨100, 100⟩
        ⟨"low", "overlay", 1 / 4, true⟩).findIdx isFeatherFill <
    (performAdvancedSwapOps ⟨⟨5, 5, 40, 60⟩, []⟩ ⟨100, 100⟩
        ⟨"low", "overlay", 1 / 4, true⟩).findIdx isDrawOverlay :=
  (performAdvancedSwap_feather_spec ⟨⟨5, 5, 40, 60⟩, []⟩ ⟨100, 100⟩
    ⟨"low", "overlay", 1 / 4, true⟩).2 (by norm_num)

/-- C5: after every `swapFace` trace, the surface's blend mode is
`source-over` and its global alpha is 1 — the explicit resets plus the
balanced save/restore leave the context at its defaults — and the final
state does not depend on the state the surface was in before the call
(the leading canvas resize resets the context), so consecutive calls
cannot bleed blend-mode or opacity state into each other. -/
theorem swapFace_resets_context_state :
    ∀ (s0 s1 : CanvasState) (detectedFace : DetectedFace) (targetImage : ImageSize)
      (config : FaceSwapConfig),
      (runOps s0 (swapFaceOps detectedFace targetImage config)).op = "source-over" ∧
      (runOps s0 (swapFaceOps detectedFace targetImage config)).alpha = 1 ∧
      runOps s0 (swapFaceOps detectedFace targetImage config)
          = runOps s1 (swapFaceOps detectedFace targetImage config) := by
  intro s0 s1 detectedFace targetImage config
  rcases hbm : getBlendMode config.blendMode with m | _ <;>
    rcases hop : getBlendOpacity config.quality with q | _ <;>
    by_cases hf : 0 < config.featherAmount <;> by_cases hc : config.colorMatch <;>
    simp [swapFaceOps, performAdvancedSwapOps, applyFeatheringOps, applyColorMatchingOps,
      runOps, stepOp, hf, hc, hbm, hop, CanvasState.default]

end FaceSwap
